import Mathlib

/-!
Shallow embedding of the two programs of this repository:
`src/reamp.py` (a CLI reamping pipeline) and `src/nam/train/gui.py`
(a training GUI), together with theorems settling the specification
claims about them.

Python strings are modelled as Lean `String`s, Python `int` as `Int`
(unbounded), `None` as `Option.none`, and the floating-point sample
arithmetic of the reamp script over `ℚ`.  Side effects of the reamp
script are modelled as a trace of `Effect`s.
-/

namespace NamSpec

/-! ## Python string primitives used by the sources -/

/-- Python `str.rstrip(chars)`: remove all trailing characters that are
members of the character set `chars` (NOT suffix removal).  Used by
`reamp.py`: `args.input_file.rstrip(".wav")`. -/
def pyRstripChars (s : String) (chars : String) : String :=
  String.mk ((s.data.reverse.dropWhile (fun c => chars.data.contains c)).reverse)

/-- ASCII whitespace characters recognised by Python `str.strip()` /
`str.rstrip()` with no argument and by `int()`. -/
def isPyWhitespace (c : Char) : Bool :=
  c == ' ' || c == '\t' || c == '\n' || c == '\r' || c == '\x0b' || c == '\x0c'

/-- Python `str.rstrip()` with no argument: remove trailing whitespace.
Used by `int_or_null` in `gui.py`: `val = val.rstrip()`. -/
def pyRstrip (s : String) : String :=
  String.mk ((s.data.reverse.dropWhile isPyWhitespace).reverse)

/-- Strip whitespace from both ends of a character list (Python `int()`
strips surrounding whitespace before parsing). -/
def pyStripList (l : List Char) : List Char :=
  ((l.dropWhile isPyWhitespace).reverse.dropWhile isPyWhitespace).reverse

/-- Numeric value of an ASCII digit character. -/
def digitVal (c : Char) : Nat := c.toNat - 48

/-- Continue parsing the digits of a Python integer literal after the
first digit: digits, with single underscores allowed between digits
(Python 3.6+ grouping), and nothing else. -/
def parseDigitsGo (acc : Nat) : List Char → Option Nat
  | [] => some acc
  | '_' :: c :: cs =>
    if c.isDigit then parseDigitsGo (10 * acc + digitVal c) cs else none
  | ['_'] => none
  | c :: cs =>
    if c.isDigit then parseDigitsGo (10 * acc + digitVal c) cs else none

/-- Parse a nonempty run of digits (with underscore grouping) as a `Nat`. -/
def parsePyNat : List Char → Option Nat
  | [] => none
  | c :: cs => if c.isDigit then parseDigitsGo (digitVal c) cs else none

/-- Python `int(s)` on a decimal string: surrounding whitespace is
stripped, an optional single sign is allowed, then digits.  `none`
models a raised `ValueError`. -/
def pyIntParse (s : String) : Option Int :=
  match pyStripList s.data with
  | '+' :: rest => (parsePyNat rest).map (fun n => (n : Int))
  | '-' :: rest => (parsePyNat rest).map (fun n => -(n : Int))
  | l => (parsePyNat l).map (fun n => (n : Int))

/-! ## reamp.py -/

/-- `_sampwidth_to_bits` in `reamp.py`: the dict `{2: 16, 3: 24, 4: 32}`;
`none` models the `KeyError` raised on any other width. -/
def _sampwidth_to_bits (x : Nat) : Option Nat :=
  match x with
  | 2 => some 16
  | 3 => some 24
  | 4 => some 32
  | _ => none

/-- Normalisation applied to input samples in `reamp.py`:
`x.data.flatten() / 2 ** (bits - 1)`, over `ℚ`. -/
def normalizeSample (s : ℤ) (bits : Nat) : ℚ := (s : ℚ) / 2 ^ (bits - 1)

/-- Rescaling applied when writing output in `reamp.py`:
`y * 2 ** (bits - 1)`, over `ℚ`. -/
def rescaleSample (y : ℚ) (bits : Nat) : ℚ := y * 2 ^ (bits - 1)

/-- The bit-depth divisor associated with a sample width, via
`_sampwidth_to_bits`: `2 ** (bits - 1)`. -/
def widthDivisor (w : Nat) : Option ℚ :=
  (_sampwidth_to_bits w).map (fun b => (2 : ℚ) ^ (b - 1))

/-- The parsed command-line arguments of `reamp.py` that determine its
control flow (`batch_size` only sizes the prediction batches and is
omitted). -/
structure ReampArgs where
  architecture : String
  params : String
  input_file : String
  output_file : Option String
  target_file : Option String
deriving DecidableEq

/-- Observable side effects of one run of `reamp.py`. -/
inductive Effect where
  | readAudio (path : String)
  | readArch (path : String)
  | readParams (path : String)
  | predict
  | writeAudio (path : String)
  | plot
  | exit1
  | raiseTypeError
deriving DecidableEq

/-- The default output path expression of `reamp.py`:
`args.input_file.rstrip(".wav") + "_reamped.wav"`. -/
def defaultOutputFile (input_file : String) : String :=
  pyRstripChars input_file ".wav" ++ "_reamped.wav"

/-- The `__main__` block of `reamp.py` as a trace of effects, given the
parsed arguments and the file-existence predicate `isfile` (i.e.
`os.path.isfile` on strings).  The existence check in the source is
`os.path.isfile(args.output_file)` — on the raw optional argument, so
when `--output_file` was omitted it is `os.path.isfile(None)`, which
raises `TypeError` (`genericpath.isfile` catches only `OSError` and
`ValueError`). -/
def reampScript (args : ReampArgs) (isfile : String → Bool) : List Effect :=
  let output_file :=
    match args.output_file with
    | some f => f
    | none => defaultOutputFile args.input_file
  match args.output_file with
  | none => [Effect.raiseTypeError]
  | some f =>
    if isfile f then [Effect.exit1]
    else
      [Effect.readAudio args.input_file, Effect.readArch args.architecture,
       Effect.readParams args.params, Effect.predict,
       Effect.writeAudio output_file]
      ++ match args.target_file with
         | some t => if isfile t then [Effect.readAudio t, Effect.plot] else []
         | none => []

/-! ## nam/train/gui.py : data model -/

/-- Modelled from the spec: `core.Architecture` (module `nam.train.core`
is an external collaborator, not among the repository sources) is an
enumerated architecture choice; `STANDARD` is the default the GUI uses.
Other members exist but are never named in the sources. -/
inductive Architecture where
  | standard
  | otherChoice
deriving DecidableEq

/-- The `_AdvancedOptions` dataclass of `gui.py`. -/
structure AdvancedOptions where
  architecture : Architecture
  num_epochs : Int
  delay : Option Int
deriving DecidableEq

/-- Defaults set at GUI construction: `_DEFAULT_NUM_EPOCHS = 100`,
`_DEFAULT_DELAY = None`, architecture `STANDARD`. -/
def defaultAdvancedOptions : AdvancedOptions :=
  { architecture := Architecture.standard, num_epochs := 100, delay := none }

/-! ## nam/train/gui.py : advanced-options dialog -/

/-- The local `non_negative_int` cast in `_AdvancedOptionsGUI.__init__`:
`val = int(val); if val < 0: val = 0; return val`.  `none` models the
`ValueError` raised by `int()` on unparseable text. -/
def non_negative_int (s : String) : Option Int :=
  (pyIntParse s).map (fun v => if v < 0 then 0 else v)

/-- Result of the local `int_or_null` cast: either the literal string
`"null"` kept as-is, or a parsed integer. -/
inductive IntOrNull where
  | nullStr
  | intVal (n : Int)
deriving DecidableEq

/-- The local `int_or_null` cast in `_AdvancedOptionsGUI.__init__`:
`val = val.rstrip(); return val if val == "null" else int(val)`.
`none` models the `ValueError` raised by `int()`. -/
def int_or_null (s : String) : Option IntOrNull :=
  let v := pyRstrip s
  if v = "null" then some IntOrNull.nullStr
  else (pyIntParse v).map IntOrNull.intVal

/-- Outcome of pressing "Ok" in the advanced-options dialog: the
parent's options after the callback ran, whether the window reached
`self._root.destroy()`, and whether an uncaught exception escaped the
callback. -/
structure ApplyResult where
  opts : AdvancedOptions
  destroyed : Bool
  raised : Bool
deriving DecidableEq

/-- `_AdvancedOptionsGUI._apply_and_destroy`, given the parent's current
options, the architecture selected in the menu, and the raw text of the
two `_LabeledText` fields (as `tk.Text.get("1.0", tk.END)` returns it,
trailing newline included).  `_LabeledText.get` catches only
`tk.TclError`; the `ValueError` raised by `int()` on bad text escapes
`get`, so the callback aborts at that field: earlier assignments stand,
later ones and `destroy()` never run (`raised := true`).  The
`is not None` guards of the source are vacuous here because the only
`None` source, a `tk.TclError` from the text widget, does not occur. -/
def apply_and_destroy (opts : AdvancedOptions) (archSel : Architecture)
    (epochsText delayText : String) : ApplyResult :=
  let o1 : AdvancedOptions := { opts with architecture := archSel }
  match non_negative_int epochsText with
  | none => { opts := o1, destroyed := false, raised := true }
  | some e =>
    let o2 : AdvancedOptions := { o1 with num_epochs := e }
    match int_or_null delayText with
    | none => { opts := o2, destroyed := false, raised := true }
    | some d =>
      let o3 : AdvancedOptions :=
        { o2 with delay := match d with
                           | IntOrNull.nullStr => none
                           | IntOrNull.intVal n => some n }
      { opts := o3, destroyed := true, raised := false }

/-! ## nam/train/gui.py : model name derivation in _GUI._train -/

/-- The characters of `".wav"`. -/
def wavChars : List Char := ['.', 'w', 'a', 'v']

/-- Boolean suffix test on character lists. -/
def hasSuffix (l suf : List Char) : Bool :=
  suf == l.drop (l.length - suf.length)

/-- `re.sub(r"\.wav$", "", s)`: remove one trailing `.wav`
(case-sensitive) if present, else leave `s` unchanged. -/
def re_sub_wav_end (s : String) : String :=
  if hasSuffix s.data wavChars then String.mk (s.data.take (s.data.length - 4))
  else s

/-- Python `s.split("/")` on the character list: split at every slash,
keeping empty fields (`"a/".split("/") == ["a", ""]`, `"".split("/") ==
[""]`). -/
def splitOnSlash : List Char → List (List Char)
  | [] => [[]]
  | c :: cs =>
    match splitOnSlash cs with
    | [] => if c = '/' then [[], []] else [[c]]
    | h :: t => if c = '/' then [] :: h :: t else (c :: h) :: t

/-- The final path segment, `file.split("/")[-1]` in `_GUI._train`
(Python `split` never returns an empty list, so `[-1]` is total). -/
def lastSegment (file : String) : String :=
  String.mk ((splitOnSlash file.data).getLastD [])

/-- The model name derived in `_GUI._train`:
`re.sub(r"\.wav$", "", file.split("/")[-1])`. -/
def modelname (file : String) : String :=
  re_sub_wav_end (lastSegment file)

/-! ## nam/train/gui.py : main window state machine -/

/-- `_PathButton._set_text`: the label colour and text displayed for a
current selection (red "… is not set!" when unset). -/
def _set_text (info_str : String) (p : Option String) : String × String :=
  match p with
  | none => ("red", info_str ++ " is not set!")
  | some v => ("black", info_str ++ " set to " ++ v)

/-- The selection update of `_PathButton._set_val`: the chooser result
`res` replaces the stored path only when it is not the empty string
(`if res != "": self._path = res`). -/
def _set_val (cur : Option String) (res : String) : Option String :=
  if res ≠ "" then some res else cur

/-- The state of the main `_GUI` window that the claims concern: the
three path selections, the two checkboxes, the advanced options, and
the Train button's enabled flag. -/
structure GUIState where
  input : Option String
  output : Option String
  dest : Option String
  silent : Bool
  save_plot : Bool
  advanced : AdvancedOptions
  trainEnabled : Bool
deriving DecidableEq

/-- `_GUI._check_button_states`: the Train button is disabled unless all
three paths are set. -/
def _check_button_states (s : GUIState) : GUIState :=
  { s with trainEnabled := s.input.isSome && s.output.isSome && s.dest.isSome }

/-- The three path selectors of the main window. -/
inductive Selector where
  | input
  | output
  | dest
deriving DecidableEq

/-- User interactions with the main window that touch its state.
`select w res` is a click on path button `w` whose file chooser returns
`res` (the empty string on cancel); `advancedOk` is the "Ok" of the
advanced-options dialog with the given menu selection and field texts;
the toggles flip the two checkboxes. -/
inductive Event where
  | select (w : Selector) (res : String)
  | toggleSilent
  | toggleSavePlot
  | advancedOk (archSel : Architecture) (epochsText delayText : String)
deriving DecidableEq

/-- The path-field update of a click on selector `w`, before hooks run. -/
def applySelect (s : GUIState) (w : Selector) (res : String) : GUIState :=
  match w with
  | Selector.input => { s with input := _set_val s.input res }
  | Selector.output => { s with output := _set_val s.output res }
  | Selector.dest => { s with dest := _set_val s.dest res }

/-- One event of the main window.  Every `_PathButton` is constructed
with `hooks=[self._check_button_states]`, and `_set_val` runs its hooks
after every chooser interaction, so a `select` always ends in
`_check_button_states`.  The other events never touch the paths or the
button state. -/
def stepEvent (s : GUIState) : Event → GUIState
  | Event.select w res => _check_button_states (applySelect s w res)
  | Event.toggleSilent => { s with silent := !s.silent }
  | Event.toggleSavePlot => { s with save_plot := !s.save_plot }
  | Event.advancedOk archSel et dt =>
    { s with advanced := (apply_and_destroy s.advanced archSel et dt).opts }

/-- The state after `_GUI.__init__`: no path set, silent off, save-plot
on, default advanced options; the constructor ends with
`self._check_button_states()`. -/
def initGUI : GUIState :=
  _check_button_states
    { input := none, output := none, dest := none, silent := false,
      save_plot := true, advanced := defaultAdvancedOptions,
      trainEnabled := true }

/-- The state reached from a fresh window by a sequence of events. -/
def runGUI (evs : List Event) : GUIState :=
  evs.foldl stepEvent initGUI

/-- The Train-button invariant: the enabled flag equals the conjunction
of the three selections being set. -/
def trainInv (s : GUIState) : Prop :=
  s.trainEnabled = (s.input.isSome && s.output.isSome && s.dest.isSome)

/-! ## Helper lemmas -/

theorem trainInv_check (s : GUIState) : trainInv (_check_button_states s) := rfl

theorem trainInv_step (s : GUIState) (e : Event) (h : trainInv s) :
    trainInv (stepEvent s e) := by
  cases e with
  | select w res => exact trainInv_check _
  | toggleSilent => exact h
  | toggleSavePlot => exact h
  | advancedOk a et dt => exact h

theorem trainInv_foldl (evs : List Event) :
    ∀ s : GUIState, trainInv s → trainInv (evs.foldl stepEvent s) := by
  induction evs with
  | nil => intro s h; exact h
  | cons e evs ih => intro s h; exact ih _ (trainInv_step s e h)

theorem trainInv_runGUI (evs : List Event) : trainInv (runGUI evs) :=
  trainInv_foldl evs initGUI (trainInv_check _)

theorem set_val_isSome (cur : Option String) (res : String)
    (h : cur.isSome = true) : (_set_val cur res).isSome = true := by
  unfold _set_val
  split
  · rfl
  · exact h

theorem enabled_step (s : GUIState) (e : Event) (hinv : trainInv s)
    (h : s.trainEnabled = true) : (stepEvent s e).trainEnabled = true := by
  have hall : (s.input.isSome && s.output.isSome && s.dest.isSome) = true := by
    rw [← hinv]; exact h
  obtain ⟨⟨hi, ho⟩, hd⟩ : (s.input.isSome = true ∧ s.output.isSome = true) ∧
      s.dest.isSome = true := by simpa [Bool.and_eq_true] using hall
  cases e with
  | select w res =>
    cases w <;>
      simp [stepEvent, _check_button_states, applySelect, hi, ho, hd,
        set_val_isSome _ res hi, set_val_isSome _ res ho, set_val_isSome _ res hd]
  | toggleSilent => exact h
  | toggleSavePlot => exact h
  | advancedOk a et dt => exact h

theorem enabled_foldl (evs : List Event) :
    ∀ s : GUIState, trainInv s → s.trainEnabled = true →
      (evs.foldl stepEvent s).trainEnabled = true := by
  induction evs with
  | nil => intro s _ h; exact h
  | cons e evs ih =>
    intro s hinv h
    exact ih _ (trainInv_step s e hinv) (enabled_step s e hinv h)

/-! ## Claim theorems -/

/-- C1: with `--output_file` omitted, the pre-existing-output guard of
`reamp.py` evaluates `os.path.isfile(args.output_file)` on `None` and
raises `TypeError`: even when the derived default output path exists
(here `isfile` is true on every path), the script does not exit with
status 1 — the claim fails in the default-path case.  (With an explicit
`--output_file` the guard does work as claimed.) -/
theorem reamp_default_output_guard_raises :
    reampScript
        { architecture := "arch.json", params := "ckpt.pt",
          input_file := "in.wav", output_file := none, target_file := none }
        (fun _ => true)
      = [Effect.raiseTypeError] ∧
    Effect.exit1 ∉
      reampScript
        { architecture := "arch.json", params := "ckpt.pt",
          input_file := "in.wav", output_file := none, target_file := none }
        (fun _ => true) := by
  decide

/-- C2: the default output path of `reamp.py` is built with
`args.input_file.rstrip(".wav")`, which removes ALL trailing characters
drawn from the set `{'.', 'w', 'a', 'v'}`, not the `.wav` suffix: for
the input `"java.wav"` it produces `"j_reamped.wav"`, not the claimed
`"java_reamped.wav"`. -/
theorem reamp_default_output_rstrip_set :
    defaultOutputFile "java.wav" = "j_reamped.wav" ∧
    defaultOutputFile "java.wav" ≠ "java_reamped.wav" := by
  decide

/-- C3: an unparseable string in the epochs (resp. delay) field does
leave the stored `num_epochs` (resp. `delay`) unchanged, but not
silently: `int()` raises `ValueError`, which `_LabeledText.get` does not
catch (it catches only `tk.TclError`), so the Ok callback raises and the
dialog is never destroyed. -/
theorem advanced_options_invalid_text_raises :
    apply_and_destroy
        { architecture := Architecture.standard, num_epochs := 100, delay := none }
        Architecture.standard "abc\n" "null\n"
      = { opts := { architecture := Architecture.standard, num_epochs := 100,
                    delay := none },
          destroyed := false, raised := true } ∧
    apply_and_destroy
        { architecture := Architecture.standard, num_epochs := 100, delay := some 5 }
        Architecture.standard "100\n" "xyz\n"
      = { opts := { architecture := Architecture.standard, num_epochs := 100,
                    delay := some 5 },
          destroyed := false, raised := true } := by
  decide

/-- C4: the width-to-divisor mapping of `reamp.py` is exactly 2 ↦ 2^15,
3 ↦ 2^23, 4 ↦ 2^31, and for every integer sample and supported width,
normalising by the divisor and rescaling by the same divisor (an
identity model interposed) reproduces the sample exactly. -/
theorem sampwidth_divisor_roundtrip :
    widthDivisor 2 = some (2 ^ 15) ∧
    widthDivisor 3 = some (2 ^ 23) ∧
    widthDivisor 4 = some (2 ^ 31) ∧
    ∀ (s : ℤ) (w b : Nat), _sampwidth_to_bits w = some b →
      rescaleSample (normalizeSample s b) b = (s : ℚ) := by
  refine ⟨rfl, rfl, rfl, ?_⟩
  intro s w b _
  unfold rescaleSample normalizeSample
  exact div_mul_cancel₀ _ (pow_ne_zero _ two_ne_zero)

theorem sampwidth_divisor_roundtrip_witness :
    _sampwidth_to_bits 3 = some 24 ∧
    rescaleSample (normalizeSample 12345 24) 24 = (12345 : ℚ) :=
  ⟨rfl, sampwidth_divisor_roundtrip.2.2.2 12345 3 24 rfl⟩

/-- C5: the model name derived in `_GUI._train` is the final path
segment with exactly one trailing `.wav` removed, case-sensitively:
appending `".wav"` to any segment is undone exactly once, a segment
without the suffix is unchanged, and the spec's examples hold. -/
theorem modelname_strips_one_wav :
    (∀ l : List Char, re_sub_wav_end (String.mk (l ++ wavChars)) = String.mk l) ∧
    (∀ s : String, hasSuffix s.data wavChars = false → re_sub_wav_end s = s) ∧
    modelname "take1.wav" = "take1" ∧
    modelname "take1.WAV" = "take1.WAV" ∧
    modelname "a.wav.wav" = "a.wav" ∧
    modelname "dir/take1.wav" = "take1" := by
  refine ⟨?_, ?_, by decide, by decide, by decide, by decide⟩
  · intro l
    have hsuf : hasSuffix (l ++ wavChars) wavChars = true := by
      simp [hasSuffix, List.length_append, wavChars]
    have htake : (l ++ wavChars).take ((l ++ wavChars).length - 4) = l := by
      have : (l ++ wavChars).length - 4 = l.length := by
        simp [List.length_append, wavChars]
      rw [this]
      exact List.take_left l wavChars
    simp only [re_sub_wav_end]
    rw [if_pos hsuf, htake]
  · intro s h
    simp only [re_sub_wav_end, h]
    simp

theorem modelname_strips_one_wav_witness :
    re_sub_wav_end (String.mk ("take1".data ++ wavChars)) = String.mk "take1".data ∧
    hasSuffix "take1.WAV".data wavChars = false ∧
    re_sub_wav_end "take1.WAV" = "take1.WAV" :=
  ⟨modelname_strips_one_wav.1 "take1".data, by decide,
   modelname_strips_one_wav.2.1 "take1.WAV" (by decide)⟩

/-- C6: in every state reachable from a fresh main window by any event
sequence, the Train button is enabled exactly when the input-audio,
output-audio and train-destination selections are all non-null; every
selector interaction re-runs `_check_button_states` through its hooks,
which is what maintains the equivalence. -/
theorem train_enabled_iff_all_paths (evs : List Event) :
    (runGUI evs).trainEnabled = true ↔
      ((runGUI evs).input ≠ none ∧ (runGUI evs).output ≠ none ∧
        (runGUI evs).dest ≠ none) := by
  have h := trainInv_runGUI evs
  unfold trainInv at h
  rw [h]
  simp [Bool.and_eq_true, Option.isSome_iff_ne_none, and_assoc]

/-- C7: whenever the epochs field holds a parseable integer, pressing Ok
stores `max(value, 0)` as `num_epochs`: negative inputs coerce to 0,
non-negative inputs are stored as-is (whatever the delay field holds). -/
theorem epochs_committed_max_zero (opts : AdvancedOptions)
    (archSel : Architecture) (epochsText delayText : String) (v : Int)
    (h : pyIntParse epochsText = some v) :
    (apply_and_destroy opts archSel epochsText delayText).opts.num_epochs
      = max v 0 := by
  unfold apply_and_destroy non_negative_int
  rw [h]
  cases hd : int_or_null delayText <;> simp [hd] <;> split <;> omega

theorem epochs_committed_max_zero_witness :
    pyIntParse "-5\n" = some (-5) ∧
    (apply_and_destroy defaultAdvancedOptions Architecture.standard "-5\n"
        "null\n").opts.num_epochs = max (-5) 0 :=
  ⟨by decide,
   epochs_committed_max_zero defaultAdvancedOptions Architecture.standard
     "-5\n" "null\n" (-5) (by decide)⟩

/-- C8: whenever the epochs field parses (so the Ok callback reaches the
delay field), a delay text whose trailing-whitespace-stripped form is
the literal `"null"` commits `delay := None`, and any other text whose
stripped form parses as an integer commits that integer; both commits
complete and destroy the dialog. -/
theorem delay_null_or_int_committed (opts : AdvancedOptions)
    (archSel : Architecture) (epochsText delayText : String) (e : Int)
    (he : pyIntParse epochsText = some e) :
    (pyRstrip delayText = "null" →
      (apply_and_destroy opts archSel epochsText delayText).opts.delay = none ∧
      (apply_and_destroy opts archSel epochsText delayText).destroyed = true) ∧
    (∀ n : Int, pyRstrip delayText ≠ "null" →
      pyIntParse (pyRstrip delayText) = some n →
      (apply_and_destroy opts archSel epochsText delayText).opts.delay = some n ∧
      (apply_and_destroy opts archSel epochsText delayText).destroyed = true) := by
  constructor
  · intro hnull
    unfold apply_and_destroy non_negative_int
    rw [he]
    simp only [Option.map_some']
    unfold int_or_null
    rw [if_pos hnull]
    exact ⟨rfl, rfl⟩
  · intro n hne hn
    unfold apply_and_destroy non_negative_int
    rw [he]
    simp only [Option.map_some']
    unfold int_or_null
    rw [if_neg hne, hn]
    exact ⟨rfl, rfl⟩

theorem delay_null_or_int_committed_witness :
    pyIntParse "100\n" = some 100 ∧
    pyRstrip "null \n" = "null" ∧
    (apply_and_destroy defaultAdvancedOptions Architecture.standard "100\n"
        "null \n").opts.delay = none ∧
    pyRstrip "7\n" ≠ "null" ∧
    pyIntParse (pyRstrip "7\n") = some 7 ∧
    (apply_and_destroy defaultAdvancedOptions Architecture.standard "100\n"
        "7\n").opts.delay = some 7 :=
  ⟨by decide, by decide,
   ((delay_null_or_int_committed defaultAdvancedOptions Architecture.standard
       "100\n" "null \n" 100 (by decide)).1 (by decide)).1,
   by decide, by decide,
   ((delay_null_or_int_committed defaultAdvancedOptions Architecture.standard
       "100\n" "7\n" 100 (by decide)).2 7 (by decide) (by decide)).1⟩

/-- C9: when `--target_file` is omitted, or names a path on which
`isfile` is false, the run of `reamp.py` is identical to a run with no
target file at all — the comparison plot (and the target read) never
happens and that step raises nothing, while every preceding effect is
unchanged. -/
theorem reamp_target_skip (args : ReampArgs) (isfile : String → Bool) :
    ((args.target_file = none ∨
        ∃ t, args.target_file = some t ∧ isfile t = false) →
      reampScript args isfile =
        reampScript { args with target_file := none } isfile) ∧
    Effect.plot ∉ reampScript { args with target_file := none } isfile := by
  obtain ⟨a, p, i, o, tf⟩ := args
  constructor
  · rintro (h | ⟨t, ht, hf⟩)
    · simp only at h
      subst h
      rfl
    · simp only at ht
      subst ht
      cases o with
      | none => rfl
      | some f =>
        simp only [reampScript]
        split
        · rfl
        · rw [hf]
          rfl
  · cases o with
    | none => simp [reampScript]
    | some f =>
      simp only [reampScript]
      split
      · simp
      · simp

theorem reamp_target_skip_witness :
    reampScript
        { architecture := "a.json", params := "ckpt", input_file := "in.wav",
          output_file := some "out.wav", target_file := some "t.wav" }
        (fun _ => false)
      = reampScript
          { architecture := "a.json", params := "ckpt", input_file := "in.wav",
            output_file := some "out.wav", target_file := none }
          (fun _ => false) ∧
    Effect.plot ∉
      reampScript
        { architecture := "a.json", params := "ckpt", input_file := "in.wav",
          output_file := some "out.wav", target_file := none }
        (fun _ => false) :=
  ⟨(reamp_target_skip
      { architecture := "a.json", params := "ckpt", input_file := "in.wav",
        output_file := some "out.wav", target_file := some "t.wav" }
      (fun _ => false)).1 (Or.inr ⟨"t.wav", rfl, rfl⟩),
   (reamp_target_skip
      { architecture := "a.json", params := "ckpt", input_file := "in.wav",
        output_file := some "out.wav", target_file := some "t.wav" }
      (fun _ => false)).2⟩

/-- C10: a cancelled file chooser (empty result) leaves the stored path
unchanged, so a selection once set never returns to null; the label is
recomputed from the unchanged path and the hooks still run
(`_check_button_states` is applied even on cancel); consequently once
the Train button is enabled, no further event sequence disables it. -/
theorem cancel_keeps_selection_and_enablement :
    (∀ cur : Option String, _set_val cur "" = cur) ∧
    (∀ (cur : Option String) (res : String), cur.isSome = true →
      (_set_val cur res).isSome = true) ∧
    (∀ (info : String) (cur : Option String),
      _set_text info (_set_val cur "") = _set_text info cur) ∧
    (∀ (s : GUIState) (w : Selector),
      stepEvent s (Event.select w "") = _check_button_states s) ∧
    (∀ evs evs' : List Event, (runGUI evs).trainEnabled = true →
      (runGUI (evs ++ evs')).trainEnabled = true) := by
  have hval : ∀ cur : Option String, _set_val cur "" = cur := by
    intro cur
    simp [_set_val]
  refine ⟨hval, set_val_isSome, ?_, ?_, ?_⟩
  · intro info cur
    rw [hval]
  · intro s w
    cases w <;> simp [stepEvent, applySelect, hval]
  · intro evs evs' h
    unfold runGUI
    rw [List.foldl_append]
    exact enabled_foldl evs' _ (trainInv_runGUI evs) h

theorem cancel_keeps_selection_and_enablement_witness :
    (some "x" : Option String).isSome = true ∧
    (_set_val (some "x") "y").isSome = true ∧
    (runGUI [Event.select Selector.input "a", Event.select Selector.output "b",
        Event.select Selector.dest "c"]).trainEnabled = true ∧
    (runGUI ([Event.select Selector.input "a", Event.select Selector.output "b",
        Event.select Selector.dest "c"] ++
        [Event.select Selector.input ""])).trainEnabled = true :=
  ⟨by decide, cancel_keeps_selection_and_enablement.2.1 (some "x") "y" (by decide),
   by decide,
   cancel_keeps_selection_and_enablement.2.2.2.2
     [Event.select Selector.input "a", Event.select Selector.output "b",
       Event.select Selector.dest "c"]
     [Event.select Selector.input ""] (by decide)⟩

end NamSpec
